import Mathlib

/-!
Shallow embedding of `barcode_gen_copy.py`: a Flask service that generates
barcode / QR-code images, uploads them to Supabase storage and records a
(name, unique_id, image_path) row in a Postgres table, plus a lookup
endpoint resolving a unique_id back to (name, image_path).

External effects (clock, image libraries, filesystem, Supabase, database)
are modelled by an explicit environment `Env` of outcome flags; the
bounded connection pool is modelled by its count of outstanding borrowed
connections, threaded through the database helpers.  Fallible Python
helpers that wrap their body in `try/except` are modelled as an
`Except PyErr` body plus a wrapper collapsing any error to the `none`
sentinel, mirroring `return None` in the `except` clause.
-/

namespace BarcodeGen

/-- Python truthiness of an optional string: `None` and `""` are falsy. -/
def pyTruthy : Option String → Bool
  | none => false
  | some s => s ≠ ""

/-- A JSON scalar, used only for the unvalidated `quantity` field. -/
inductive JVal where
  | jnum (n : Int)
  | jstr (s : String)
  | jnull
deriving DecidableEq, Repr

/-- Exceptions that the Python helpers can raise internally. -/
inductive PyErr where
  | invalidPayload
  | fileNotFound
  | libError
deriving DecidableEq, Repr

/-- Service configuration drawn from environment variables. -/
structure Config where
  supabase_url : String
  supabase_bucket : String
deriving DecidableEq, Repr

/-- The external world for one request: configuration, the clock value
read by `time.time()`, and the outcome of each external operation. -/
structure Env where
  cfg : Config
  clock : Nat
  barcodeLibThrows : Bool
  barcodeFileCreated : Bool
  qrThrows : Bool
  uploadFileExists : Bool
  uploadThrows : Bool
  dbFails : Bool
deriving DecidableEq, Repr

/-- Decimal digit characters of `n`, most significant first, with
structural fuel (`fuel = n + 1` always suffices).  Models Python `str`
on a non-negative integer. -/
def decDigitsAux : Nat → Nat → List Char
  | 0, _ => []
  | fuel + 1, n =>
    if n < 10 then [Nat.digitChar n]
    else decDigitsAux fuel (n / 10) ++ [Nat.digitChar (n % 10)]

/-- Python `str(n)` for a natural number. -/
def pyStrOfNat (n : Nat) : String :=
  String.mk (decDigitsAux (n + 1) n)

/-- Module-level `generate_unique_id`: `str(int(time.time()))`.  Used by
the QR endpoint. -/
def generate_unique_id (clock : Nat) : String :=
  pyStrOfNat clock

/-- Python `s[-k:]`: the last `min k (length s)` characters. -/
def strTakeLast (k : Nat) (s : String) : String :=
  String.mk (s.toList.drop (s.toList.length - k))

/-- Python `s.zfill(k)`: left-pad with `'0'` to width `k`. -/
def zfill (k : Nat) (s : String) : String :=
  String.mk (List.replicate (k - s.toList.length) '0' ++ s.toList)

/-- The `generate_unique_id` nested inside the barcode endpoint:
`str(int(time.time()))[-12:].zfill(12)`. -/
def generate_unique_id_barcode (clock : Nat) : String :=
  zfill 12 (strTakeLast 12 (pyStrOfNat clock))

/-- Modelled from the spec: the EAN-13-class payload constraint enforced
by the external `python-barcode` library when `ean(unique_id, ...)` is
constructed — the payload must be numeric with a fixed digit count
("EAN-13 requires a 12 or 13-digit numeric payload"); a violation raises,
i.e. is a `RenderError::InvalidPayload`. -/
def ean13Accepts (payload : String) : Bool :=
  payload.toList.all (·.isDigit) &&
    (payload.toList.length == 12 || payload.toList.length == 13)

/-- Body of `generate_gs1_barcode` before the `except` clause: construct
the EAN-13 symbol (validating the payload), save it under `/tmp`, check
the file exists, and return the full path. -/
def gs1_body (env : Env) (unique_id : String) : Except PyErr String :=
  if ¬ ean13Accepts unique_id then .error .invalidPayload
  else if env.barcodeLibThrows then .error .libError
  else if ¬ env.barcodeFileCreated then .error .fileNotFound
  else .ok ("/tmp/" ++ unique_id ++ ".png")

/-- `generate_gs1_barcode`: any internal exception is caught and `None`
is returned. -/
def generate_gs1_barcode (env : Env) (unique_id : String) : Option String :=
  match gs1_body env unique_id with
  | .ok p => some p
  | .error _ => none

/-- Body of `generate_qr_code` before the `except` clause: build the QR
symbol from `data` and save it under `/tmp/{unique_id}_qr.png`. -/
def qr_body (env : Env) (_data unique_id : String) : Except PyErr String :=
  if env.qrThrows then .error .libError
  else .ok ("/tmp/" ++ unique_id ++ "_qr.png")

/-- `generate_qr_code`: any internal exception is caught and `None`
is returned. -/
def generate_qr_code (env : Env) (data unique_id : String) : Option String :=
  match qr_body env data unique_id with
  | .ok p => some p
  | .error _ => none

/-- `folder = "barcodes" if file_type == "barcode" else "qrcodes"`. -/
def folderFor (file_type : String) : String :=
  if file_type == "barcode" then "barcodes" else "qrcodes"

/-- The storage key targeted by `upload_to_supabase`:
`static/{folder}/{unique_id}.png`. -/
def destination_key (file_type unique_id : String) : String :=
  "static/" ++ folderFor file_type ++ "/" ++ unique_id ++ ".png"

/-- The public URL constructed by `upload_to_supabase` from the
configuration, the folder for the kind and the unique id. -/
def public_url (cfg : Config) (file_type unique_id : String) : String :=
  cfg.supabase_url ++ "/storage/v1/object/public/" ++ cfg.supabase_bucket
    ++ "/" ++ destination_key file_type unique_id

/-- Body of `upload_to_supabase` before the `except` clause: check the
staged file exists, upload to the destination key, build the public URL. -/
def upload_body (env : Env) (_image_path unique_id file_type : String) :
    Except PyErr String :=
  if ¬ env.uploadFileExists then .error .fileNotFound
  else if env.uploadThrows then .error .libError
  else .ok (public_url env.cfg file_type unique_id)

/-- `upload_to_supabase`: any internal exception is caught and `None`
is returned. -/
def upload_to_supabase (env : Env) (image_path unique_id file_type : String) :
    Option String :=
  match upload_body env image_path unique_id file_type with
  | .ok url => some url
  | .error _ => none

/-- One database row of the `barcodes` or `qrcodes` table. -/
structure Row where
  name : String
  unique_id : String
  image_path : String
deriving DecidableEq, Repr

/-- The persisted state: the two tables. -/
structure DB where
  barcodes : List Row
  qrcodes : List Row
deriving DecidableEq, Repr

/-- `store_product_in_db`: borrow a connection from the pool (outstanding
count +1), insert the row into the table for `image_type`, commit and
release (count -1).  If the query or commit raises, the `except` clause
returns `False` without ever reaching `release_db_connection`, so the
borrowed connection stays outstanding.  Returns (success, new DB state,
new outstanding-connection count). -/
def store_product_in_db (env : Env) (name unique_id image_url image_type : String)
    (db : DB) (pool : Nat) : Bool × DB × Nat :=
  let pool1 := pool + 1
  if env.dbFails then
    (false, db, pool1)
  else
    let row : Row := ⟨name, unique_id, image_url⟩
    let db1 :=
      if image_type == "barcode" then { db with barcodes := db.barcodes ++ [row] }
      else { db with qrcodes := db.qrcodes ++ [row] }
    (true, db1, pool1 - 1)

/-- External calls attempted by an endpoint, in order, with the argument
that identifies the call. -/
inductive Call where
  | render (payload : String)
  | upload (key : String)
  | dbInsert (unique_id : String)
  | dbQuery (unique_id : String)
deriving DecidableEq, Repr

/-- An HTTP JSON response: status code plus the body fields the service
ever emits (absent fields are `none`). -/
structure Resp where
  status : Nat
  isSuccess : Bool
  message : String
  unique_id : Option String := none
  image_path : Option String := none
  name : Option String := none
deriving DecidableEq, Repr

/-- Request body of the two generation endpoints. -/
structure GenRequest where
  name : Option String
  quantity : Option JVal
deriving DecidableEq, Repr

/-- Result of a generation endpoint: response, database state, pool
outstanding count, and the trace of attempted external calls. -/
structure GenResult where
  resp : Resp
  db : DB
  pool : Nat
  trace : List Call
deriving DecidableEq, Repr

/-- `POST /generate_barcode_new`: validate `name`, derive the 12-digit
unique id, render, upload, persist — aborting with a failure response at
the first failed step. -/
def generate_barcode (env : Env) (req : GenRequest) (db : DB) (pool : Nat) :
    GenResult :=
  if ¬ pyTruthy req.name then
    { resp := { status := 400, isSuccess := false, message := "Missing required fields" },
      db := db, pool := pool, trace := [] }
  else
    let name := req.name.getD ""
    let uid := generate_unique_id_barcode env.clock
    match generate_gs1_barcode env uid with
    | none =>
      { resp := { status := 500, isSuccess := false, message := "Failed to generate barcode" },
        db := db, pool := pool, trace := [.render uid] }
    | some barcode_path =>
      match upload_to_supabase env barcode_path uid "barcode" with
      | none =>
        { resp := { status := 500, isSuccess := false, message := "Failed to upload barcode" },
          db := db, pool := pool,
          trace := [.render uid, .upload (destination_key "barcode" uid)] }
      | some barcode_url =>
        match store_product_in_db env name uid barcode_url "barcode" db pool with
        | (false, db1, pool1) =>
          { resp := { status := 500, isSuccess := false, message := "Database error" },
            db := db1, pool := pool1,
            trace := [.render uid, .upload (destination_key "barcode" uid), .dbInsert uid] }
        | (true, db1, pool1) =>
          { resp := { status := 201, isSuccess := true,
                      message := "Barcode generated and stored successfully",
                      unique_id := some uid, image_path := some barcode_url },
            db := db1, pool := pool1,
            trace := [.render uid, .upload (destination_key "barcode" uid), .dbInsert uid] }

/-- `POST /generate_qrcode_new`: validate `name`, derive the unique id
with the module-level generator, render the QR (encoding `name`),
upload, persist — aborting at the first failed step. -/
def generate_qrcode (env : Env) (req : GenRequest) (db : DB) (pool : Nat) :
    GenResult :=
  if ¬ pyTruthy req.name then
    { resp := { status := 400, isSuccess := false, message := "Missing required fields" },
      db := db, pool := pool, trace := [] }
  else
    let name := req.name.getD ""
    let uid := generate_unique_id env.clock
    match generate_qr_code env name uid with
    | none =>
      { resp := { status := 500, isSuccess := false, message := "Failed to generate QR Code" },
        db := db, pool := pool, trace := [.render name] }
    | some qr_path =>
      match upload_to_supabase env qr_path uid "qrcode" with
      | none =>
        { resp := { status := 500, isSuccess := false, message := "Failed to upload QR Code" },
          db := db, pool := pool,
          trace := [.render name, .upload (destination_key "qrcode" uid)] }
      | some qr_url =>
        match store_product_in_db env name uid qr_url "qrcode" db pool with
        | (false, db1, pool1) =>
          { resp := { status := 500, isSuccess := false, message := "Database error" },
            db := db1, pool := pool1,
            trace := [.render name, .upload (destination_key "qrcode" uid), .dbInsert uid] }
        | (true, db1, pool1) =>
          { resp := { status := 201, isSuccess := true,
                      message := "QR Code generated and stored successfully",
                      unique_id := some uid, image_path := some qr_url },
            db := db1, pool := pool1,
            trace := [.render name, .upload (destination_key "qrcode" uid), .dbInsert uid] }

/-- Request body of the scan endpoint. -/
structure ScanRequest where
  unique_id : Option String
deriving DecidableEq, Repr

/-- Result of the scan endpoint: response, pool outstanding count, and
the trace of attempted external calls. -/
structure ScanResult where
  resp : Resp
  pool : Nat
  trace : List Call
deriving DecidableEq, Repr

/-- The `SELECT ... FROM barcodes WHERE unique_id = %s UNION SELECT ...
FROM qrcodes ...` query followed by `fetchone()`: the first row, if any,
matching the unique id in either table. -/
def fetchUnion (db : DB) (uid : String) : Option Row :=
  (db.barcodes.filter (fun r => r.unique_id == uid) ++
    db.qrcodes.filter (fun r => r.unique_id == uid)).head?

/-- `POST /scan_code_new`: validate `unique_id` (before touching the
database), borrow a connection, run the union query, release, and answer
200 / 404.  If the query raises, the `except` clause returns 500 without
reaching `release_db_connection`. -/
def scan_code (env : Env) (req : ScanRequest) (db : DB) (pool : Nat) :
    ScanResult :=
  if ¬ pyTruthy req.unique_id then
    { resp := { status := 400, isSuccess := false, message := "Unique ID is required" },
      pool := pool, trace := [] }
  else
    let uid := req.unique_id.getD ""
    let pool1 := pool + 1
    if env.dbFails then
      { resp := { status := 500, isSuccess := false, message := "Database error" },
        pool := pool1, trace := [.dbQuery uid] }
    else
      let product := fetchUnion db uid
      let pool2 := pool1 - 1
      match product with
      | none =>
        { resp := { status := 404, isSuccess := false, message := "Product not found" },
          pool := pool2, trace := [.dbQuery uid] }
      | some row =>
        { resp := { status := 200, isSuccess := true, message := "",
                    name := some row.name, image_path := some row.image_path },
          pool := pool2, trace := [.dbQuery uid] }

/-- Whether a trace contains a database-insert call. -/
def hasDbInsert (tr : List Call) : Bool :=
  tr.any fun c => match c with
    | .dbInsert _ => true
    | _ => false

/-! Concrete fixtures used by witnesses and counterexamples. -/

/-- A concrete configuration. -/
def cfg0 : Config := ⟨"https://sb", "bkt"⟩

/-- An environment in which every external operation succeeds. -/
def envOk : Env :=
  { cfg := cfg0, clock := 0, barcodeLibThrows := false, barcodeFileCreated := true,
    qrThrows := false, uploadFileExists := true, uploadThrows := false, dbFails := false }

/-- An environment in which the database query / commit raises. -/
def envDbFail : Env := { envOk with dbFails := true }

/-- An environment in which the Supabase upload call raises. -/
def envUploadFail : Env := { envOk with uploadThrows := true }

/-- An environment in which every image-library and upload call raises. -/
def envAllThrow : Env :=
  { envOk with barcodeLibThrows := true, qrThrows := true, uploadThrows := true }

/-- The empty database. -/
def db0 : DB := ⟨[], []⟩

/-! Helper lemmas. -/

theorem digitChar_isDigit_of_lt : ∀ k, k < 10 → (Nat.digitChar k).isDigit = true := by
  decide

theorem mem_decDigitsAux_isDigit :
    ∀ fuel n c, c ∈ decDigitsAux fuel n → c.isDigit = true := by
  intro fuel
  induction fuel with
  | zero => intro n c h; simp [decDigitsAux] at h
  | succ f ih =>
    intro n c h
    by_cases hn : n < 10
    · simp [decDigitsAux, hn] at h
      subst h
      exact digitChar_isDigit_of_lt n hn
    · simp [decDigitsAux, hn] at h
      rcases h with h | h
      · exact ih _ _ h
      · subst h
        exact digitChar_isDigit_of_lt _ (Nat.mod_lt _ (by norm_num))

theorem decDigitsAux_succ_ne_nil (fuel n : Nat) : decDigitsAux (fuel + 1) n ≠ [] := by
  by_cases hn : n < 10 <;> simp [decDigitsAux, hn]

theorem pyStrOfNat_ne_empty (n : Nat) : pyStrOfNat n ≠ "" := by
  simp only [pyStrOfNat]
  intro h
  exact decDigitsAux_succ_ne_nil n n (by simpa [String.ext_iff] using h)

theorem toList_mk (l : List Char) : (String.mk l).toList = l := rfl

theorem uid12_length (t : Nat) : (generate_unique_id_barcode t).length = 12 := by
  simp only [generate_unique_id_barcode, zfill, strTakeLast, String.length_mk, toList_mk,
    List.length_append, List.length_replicate, List.length_drop]
  omega

theorem uid12_digits (t : Nat) :
    ∀ c ∈ (generate_unique_id_barcode t).toList, c.isDigit = true := by
  intro c hc
  simp only [generate_unique_id_barcode, zfill, strTakeLast, pyStrOfNat, toList_mk,
    List.mem_append, List.mem_replicate] at hc
  rcases hc with ⟨_, hc⟩ | hc
  · simp [hc]
  · exact mem_decDigitsAux_isDigit _ _ _ (List.mem_of_mem_drop hc)

theorem uid12_ne_empty (t : Nat) : generate_unique_id_barcode t ≠ "" := by
  intro h
  have h12 := uid12_length t
  rw [h] at h12
  simp at h12

theorem generate_unique_id_ne_empty (t : Nat) : generate_unique_id t ≠ "" :=
  pyStrOfNat_ne_empty t

theorem upload_some_eq (env : Env) (p uid ftype u : String)
    (h : upload_to_supabase env p uid ftype = some u) :
    u = public_url env.cfg ftype uid := by
  unfold upload_to_supabase upload_body at h
  by_cases hf : env.uploadFileExists = true
  · by_cases ht : env.uploadThrows = true
    · simp [hf, ht] at h
    · simp [hf, ht] at h
      exact h.symm
  · simp [hf] at h

theorem pyTruthy_some_getD (o : Option String) (h : pyTruthy o = true) :
    o = some (o.getD "") := by
  cases o with
  | none => simp [pyTruthy] at h
  | some s => rfl

theorem fetchUnion_barcodes_insert (db : DB) (row : Row) (uid : String)
    (h1 : ∀ r ∈ db.barcodes, r.unique_id ≠ uid)
    (h2 : ∀ r ∈ db.qrcodes, r.unique_id ≠ uid) (hrow : row.unique_id = uid) :
    fetchUnion { db with barcodes := db.barcodes ++ [row] } uid = some row := by
  have e1 : db.barcodes.filter (fun r => r.unique_id == uid) = [] :=
    List.filter_eq_nil_iff.mpr (by simpa using h1)
  have e2 : db.qrcodes.filter (fun r => r.unique_id == uid) = [] :=
    List.filter_eq_nil_iff.mpr (by simpa using h2)
  simp only [fetchUnion, List.filter_append, e1, e2]
  simp [List.filter_cons, hrow]

theorem fetchUnion_qrcodes_insert (db : DB) (row : Row) (uid : String)
    (h1 : ∀ r ∈ db.barcodes, r.unique_id ≠ uid)
    (h2 : ∀ r ∈ db.qrcodes, r.unique_id ≠ uid) (hrow : row.unique_id = uid) :
    fetchUnion { db with qrcodes := db.qrcodes ++ [row] } uid = some row := by
  have e1 : db.barcodes.filter (fun r => r.unique_id == uid) = [] :=
    List.filter_eq_nil_iff.mpr (by simpa using h1)
  have e2 : db.qrcodes.filter (fun r => r.unique_id == uid) = [] :=
    List.filter_eq_nil_iff.mpr (by simpa using h2)
  simp only [fetchUnion, List.filter_append, e1, e2]
  simp [List.filter_cons, hrow]

theorem scan_found (env : Env) (db : DB) (pool : Nat) (uid : String) (row : Row)
    (hne : uid ≠ "") (henv : env.dbFails = false)
    (hfetch : fetchUnion db uid = some row) :
    scan_code env ⟨some uid⟩ db pool =
      { resp := { status := 200, isSuccess := true, message := "",
                  name := some row.name, image_path := some row.image_path },
        pool := pool, trace := [Call.dbQuery uid] } := by
  simp [scan_code, pyTruthy, hne, henv, hfetch]

theorem generate_barcode_success_spec (env : Env) (req : GenRequest) (db : DB) (pool : Nat)
    (h : (generate_barcode env req db pool).resp.isSuccess = true) :
    generate_barcode env req db pool =
      { resp := { status := 201, isSuccess := true,
                  message := "Barcode generated and stored successfully",
                  unique_id := some (generate_unique_id_barcode env.clock),
                  image_path := some (public_url env.cfg "barcode"
                    (generate_unique_id_barcode env.clock)) },
        db := { db with barcodes := db.barcodes ++
                  [⟨req.name.getD "", generate_unique_id_barcode env.clock,
                    public_url env.cfg "barcode" (generate_unique_id_barcode env.clock)⟩] },
        pool := pool,
        trace := [.render (generate_unique_id_barcode env.clock),
                  .upload (destination_key "barcode" (generate_unique_id_barcode env.clock)),
                  .dbInsert (generate_unique_id_barcode env.clock)] } := by
  by_cases hn : pyTruthy req.name = true
  · cases hg : generate_gs1_barcode env (generate_unique_id_barcode env.clock) with
    | none => simp [generate_barcode, hn, hg] at h
    | some p =>
      cases hu : upload_to_supabase env p (generate_unique_id_barcode env.clock) "barcode" with
      | none => simp [generate_barcode, hn, hg, hu] at h
      | some url =>
        have hurl := upload_some_eq env p _ "barcode" url hu
        by_cases hd : env.dbFails = true
        · simp [generate_barcode, store_product_in_db, hn, hg, hu, hd] at h
        · simp [generate_barcode, store_product_in_db, hn, hg, hu, hd, hurl]
  · simp [generate_barcode, hn] at h

theorem generate_qrcode_success_spec (env : Env) (req : GenRequest) (db : DB) (pool : Nat)
    (h : (generate_qrcode env req db pool).resp.isSuccess = true) :
    generate_qrcode env req db pool =
      { resp := { status := 201, isSuccess := true,
                  message := "QR Code generated and stored successfully",
                  unique_id := some (generate_unique_id env.clock),
                  image_path := some (public_url env.cfg "qrcode"
                    (generate_unique_id env.clock)) },
        db := { db with qrcodes := db.qrcodes ++
                  [⟨req.name.getD "", generate_unique_id env.clock,
                    public_url env.cfg "qrcode" (generate_unique_id env.clock)⟩] },
        pool := pool,
        trace := [.render (req.name.getD ""),
                  .upload (destination_key "qrcode" (generate_unique_id env.clock)),
                  .dbInsert (generate_unique_id env.clock)] } := by
  by_cases hn : pyTruthy req.name = true
  · cases hg : generate_qr_code env (req.name.getD "") (generate_unique_id env.clock) with
    | none => simp [generate_qrcode, hn, hg] at h
    | some p =>
      cases hu : upload_to_supabase env p (generate_unique_id env.clock) "qrcode" with
      | none => simp [generate_qrcode, hn, hg, hu] at h
      | some url =>
        have hurl := upload_some_eq env p _ "qrcode" url hu
        by_cases hd : env.dbFails = true
        · simp [generate_qrcode, store_product_in_db, hn, hg, hu, hd] at h
        · simp [generate_qrcode, store_product_in_db, hn, hg, hu, hd, hurl]
  · simp [generate_qrcode, hn] at h

theorem generate_barcode_success_name (env : Env) (req : GenRequest) (db : DB) (pool : Nat)
    (h : (generate_barcode env req db pool).resp.isSuccess = true) :
    pyTruthy req.name = true := by
  by_contra hn
  rw [Bool.not_eq_true] at hn
  simp [generate_barcode, hn] at h

theorem generate_qrcode_success_name (env : Env) (req : GenRequest) (db : DB) (pool : Nat)
    (h : (generate_qrcode env req db pool).resp.isSuccess = true) :
    pyTruthy req.name = true := by
  by_contra hn
  rw [Bool.not_eq_true] at hn
  simp [generate_qrcode, hn] at h

/-! Claim theorems. -/

/-- C5: the identifier generator used by the barcode endpoint is the
decimal string of the clock value truncated to its last 12 characters
and left-padded with zeros to width 12, and its result is always a
string of exactly 12 decimal digits, for every value read from the
clock. -/
theorem barcode_unique_id_is_twelve_decimal_digits (t : Nat) :
    generate_unique_id_barcode t = zfill 12 (strTakeLast 12 (pyStrOfNat t)) ∧
    (generate_unique_id_barcode t).length = 12 ∧
    ∀ c ∈ (generate_unique_id_barcode t).toList, c.isDigit = true :=
  ⟨rfl, uid12_length t, uid12_digits t⟩

/-- C10: a `scan_code_new` request whose body lacks a truthy `unique_id`
(missing or empty) is answered with HTTP 400, `isSuccess: false` and the
message "Unique ID is required"; the pool count is untouched (no
connection acquired) and the trace is empty (no query executed). -/
theorem scan_missing_unique_id_rejected (env : Env) (req : ScanRequest)
    (db : DB) (pool : Nat) (h : pyTruthy req.unique_id = false) :
    scan_code env req db pool =
      { resp := { status := 400, isSuccess := false, message := "Unique ID is required" },
        pool := pool, trace := [] } := by
  simp [scan_code, h]

/-- Witness for C10 at a concrete request with no `unique_id`. -/
theorem scan_missing_unique_id_rejected_witness :
    scan_code envOk ⟨none⟩ db0 0 =
      { resp := { status := 400, isSuccess := false, message := "Unique ID is required" },
        pool := 0, trace := [] } :=
  scan_missing_unique_id_rejected envOk ⟨none⟩ db0 0 rfl

/-- C2 (refuting the claim on the code): when the query or commit raises,
`store_product_in_db` and `scan_code` return from the `except` clause
without releasing the borrowed connection, so the outstanding count ends
at 1 instead of returning to the prior value 0; on the success path the
count does return to 0 — the leak is specific to the error exit path. -/
theorem db_error_leaks_pooled_connection :
    (store_product_in_db envDbFail "A" "1" "url" "barcode" db0 0).1 = false ∧
    (store_product_in_db envDbFail "A" "1" "url" "barcode" db0 0).2.2 = 1 ∧
    (scan_code envDbFail ⟨some "1"⟩ db0 0).resp.status = 500 ∧
    (scan_code envDbFail ⟨some "1"⟩ db0 0).pool = 1 ∧
    (store_product_in_db envOk "A" "1" "url" "barcode" db0 0).2.2 = 0 ∧
    (scan_code envOk ⟨some "1"⟩ db0 0).pool = 0 := by
  decide

/-- C9: a payload rejected by the EAN-13-class constraint (non-numeric
or wrong length) makes the barcode render fail — the body raises
`InvalidPayload` and `generate_gs1_barcode` reports failure (`none`)
rather than returning an image as success. -/
theorem invalid_ean13_payload_render_fails (env : Env) (uid : String)
    (h : ean13Accepts uid = false) :
    gs1_body env uid = Except.error PyErr.invalidPayload ∧
    generate_gs1_barcode env uid = none := by
  refine ⟨?_, ?_⟩ <;> simp [generate_gs1_barcode, gs1_body, h]

/-- Witness for C9 at the concrete non-numeric payload "ABC123". -/
theorem invalid_ean13_payload_render_fails_witness :
    ean13Accepts "ABC123" = false ∧ generate_gs1_barcode envOk "ABC123" = none :=
  ⟨by decide, (invalid_ean13_payload_render_fails envOk "ABC123" (by decide)).2⟩

/-- C7 counterexample: the destination key actually used is
`static/{folder}/{unique_id}.png`, which differs from the claimed
composition `{folder-for-kind}/{unique_id}` at the concrete unique id
"123456789012". -/
theorem storage_key_not_bare_folder_uid :
    destination_key "barcode" "123456789012" = "static/barcodes/123456789012.png" ∧
    destination_key "barcode" "123456789012" ≠ "barcodes" ++ "/" ++ "123456789012" := by
  decide

/-- C7 (amended): the destination key is
`static/{folder-for-kind}/{unique_id}.png`, and the public URL of a
successful upload is a deterministic function of the configuration
(bucket), kind and unique id — two successful uploads with the same
configuration, unique id and kind return identical URLs, regardless of
the staged file path. -/
theorem upload_key_url_deterministic (env1 env2 : Env)
    (p1 p2 uid ftype u1 u2 : String) (hc : env1.cfg = env2.cfg)
    (h1 : upload_to_supabase env1 p1 uid ftype = some u1)
    (h2 : upload_to_supabase env2 p2 uid ftype = some u2) :
    u1 = public_url env1.cfg ftype uid ∧ u2 = u1 ∧
    destination_key ftype uid = "static/" ++ folderFor ftype ++ "/" ++ uid ++ ".png" := by
  have e1 := upload_some_eq env1 p1 uid ftype u1 h1
  have e2 := upload_some_eq env2 p2 uid ftype u2 h2
  exact ⟨e1, by rw [e1, e2, hc], rfl⟩

/-- Witness for C7 (amended) at two concrete uploads of different staged
files to the same unique id and kind. -/
theorem upload_key_url_deterministic_witness :
    ("https://sb/storage/v1/object/public/bkt/static/barcodes/7.png"
      = public_url envOk.cfg "barcode" "7") ∧
    ("https://sb/storage/v1/object/public/bkt/static/barcodes/7.png"
      = "https://sb/storage/v1/object/public/bkt/static/barcodes/7.png") ∧
    destination_key "barcode" "7" = "static/" ++ folderFor "barcode" ++ "/" ++ "7" ++ ".png" :=
  upload_key_url_deterministic envOk envOk "/tmp/a.png" "/tmp/b.png" "7" "barcode"
    "https://sb/storage/v1/object/public/bkt/static/barcodes/7.png"
    "https://sb/storage/v1/object/public/bkt/static/barcodes/7.png"
    rfl (by decide) (by decide)

/-- C1: for both generation endpoints, if the upload step does not
return success (every upload call yields the `None` sentinel) then the
database is left unchanged and no database-insert call appears in the
trace — the pipeline checks the upload result before the persist step. -/
theorem upload_failure_blocks_db_insert (env : Env) (req : GenRequest) (db : DB) (pool : Nat)
    (h : ∀ p u t, upload_to_supabase env p u t = none) :
    ((generate_barcode env req db pool).db = db ∧
      hasDbInsert (generate_barcode env req db pool).trace = false) ∧
    ((generate_qrcode env req db pool).db = db ∧
      hasDbInsert (generate_qrcode env req db pool).trace = false) := by
  constructor
  · by_cases hn : pyTruthy req.name = true
    · cases hg : generate_gs1_barcode env (generate_unique_id_barcode env.clock) with
      | none => simp [generate_barcode, hn, hg, hasDbInsert]
      | some p => simp [generate_barcode, hn, hg, h, hasDbInsert]
    · simp [generate_barcode, hn, hasDbInsert]
  · by_cases hn : pyTruthy req.name = true
    · cases hg : generate_qr_code env (req.name.getD "") (generate_unique_id env.clock) with
      | none => simp [generate_qrcode, hn, hg, hasDbInsert]
      | some p => simp [generate_qrcode, hn, hg, h, hasDbInsert]
    · simp [generate_qrcode, hn, hasDbInsert]

/-- Witness for C1 in a concrete environment whose upload call always
raises. -/
theorem upload_failure_blocks_db_insert_witness :
    ((generate_barcode envUploadFail ⟨some "A", none⟩ db0 0).db = db0 ∧
      hasDbInsert (generate_barcode envUploadFail ⟨some "A", none⟩ db0 0).trace = false) ∧
    ((generate_qrcode envUploadFail ⟨some "A", none⟩ db0 0).db = db0 ∧
      hasDbInsert (generate_qrcode envUploadFail ⟨some "A", none⟩ db0 0).trace = false) :=
  upload_failure_blocks_db_insert envUploadFail ⟨some "A", none⟩ db0 0
    (fun p u t => by simp [upload_to_supabase, upload_body, envUploadFail, envOk])

/-- C3 counterexample: a request with a present name but quantity 0
(which is `< 1`) is not rejected — it is answered 201 and the renderer
is invoked, refuting the claim that `quantity < 1` yields a 400 with no
renderer call. -/
theorem quantity_zero_not_rejected :
    (generate_barcode envOk ⟨some "A", some (JVal.jnum 0)⟩ db0 0).resp.status = 201 ∧
    (generate_barcode envOk ⟨some "A", some (JVal.jnum 0)⟩ db0 0).trace ≠ [] := by
  decide

/-- C3 (amended): only a missing (falsy) name is rejected: such requests
get HTTP 400 with `isSuccess: false` and no renderer, uploader or
database call; the quantity field is never read, so its value — however
invalid — does not affect the response. -/
theorem only_missing_name_rejected (env : Env) (req : GenRequest) (db : DB) (pool : Nat) :
    (pyTruthy req.name = false →
      generate_barcode env req db pool =
        { resp := { status := 400, isSuccess := false, message := "Missing required fields" },
          db := db, pool := pool, trace := [] } ∧
      generate_qrcode env req db pool =
        { resp := { status := 400, isSuccess := false, message := "Missing required fields" },
          db := db, pool := pool, trace := [] }) ∧
    (∀ q : Option JVal, generate_barcode env ⟨req.name, q⟩ db pool
        = generate_barcode env ⟨req.name, req.quantity⟩ db pool) ∧
    (∀ q : Option JVal, generate_qrcode env ⟨req.name, q⟩ db pool
        = generate_qrcode env ⟨req.name, req.quantity⟩ db pool) := by
  refine ⟨fun h => ⟨?_, ?_⟩, fun q => rfl, fun q => rfl⟩
  · simp [generate_barcode, h]
  · simp [generate_qrcode, h]

/-- Witness for C3 (amended) at a concrete nameless request. -/
theorem only_missing_name_rejected_witness :
    (generate_barcode envOk ⟨none, some (JVal.jnum 0)⟩ db0 0 =
      { resp := { status := 400, isSuccess := false, message := "Missing required fields" },
        db := db0, pool := 0, trace := [] } ∧
     generate_qrcode envOk ⟨none, some (JVal.jnum 0)⟩ db0 0 =
      { resp := { status := 400, isSuccess := false, message := "Missing required fields" },
        db := db0, pool := 0, trace := [] }) ∧
    generate_barcode envOk ⟨none, some (JVal.jstr "x")⟩ db0 0
      = generate_barcode envOk ⟨none, some (JVal.jnum 0)⟩ db0 0 :=
  ⟨(only_missing_name_rejected envOk ⟨none, some (JVal.jnum 0)⟩ db0 0).1 rfl,
   (only_missing_name_rejected envOk ⟨none, some (JVal.jnum 0)⟩ db0 0).2.1 (some (JVal.jstr "x"))⟩

/-- C4 counterexample: on the QR endpoint the data encoded into the
symbol is the product name, not the unique id — at the concrete request
with name "ProductA" and clock 0 the rendered payload is "ProductA"
while the generated unique id is "0". -/
theorem qr_payload_is_name_not_uid :
    (generate_qrcode envOk ⟨some "ProductA", none⟩ db0 0).resp.unique_id = some "0" ∧
    (generate_qrcode envOk ⟨some "ProductA", none⟩ db0 0).trace =
      [Call.render "ProductA", Call.upload (destination_key "qrcode" "0"), Call.dbInsert "0"] ∧
    ("ProductA" : String) ≠ "0" := by
  decide

/-- C4 (amended): on every successful barcode request the unique id is
the payload encoded into the symbol, the storage key component and the
`unique_id` of the inserted row; on every successful QR request the data
encoded is the product name, while the storage key and the inserted
row's `unique_id` use the unique id. -/
theorem unique_id_roles (env : Env) (req : GenRequest) (db : DB) (pool : Nat) :
    ((generate_barcode env req db pool).resp.isSuccess = true →
      generate_barcode env req db pool =
        { resp := { status := 201, isSuccess := true,
                    message := "Barcode generated and stored successfully",
                    unique_id := some (generate_unique_id_barcode env.clock),
                    image_path := some (public_url env.cfg "barcode"
                      (generate_unique_id_barcode env.clock)) },
          db := { db with barcodes := db.barcodes ++
                    [⟨req.name.getD "", generate_unique_id_barcode env.clock,
                      public_url env.cfg "barcode" (generate_unique_id_barcode env.clock)⟩] },
          pool := pool,
          trace := [.render (generate_unique_id_barcode env.clock),
                    .upload (destination_key "barcode" (generate_unique_id_barcode env.clock)),
                    .dbInsert (generate_unique_id_barcode env.clock)] }) ∧
    ((generate_qrcode env req db pool).resp.isSuccess = true →
      generate_qrcode env req db pool =
        { resp := { status := 201, isSuccess := true,
                    message := "QR Code generated and stored successfully",
                    unique_id := some (generate_unique_id env.clock),
                    image_path := some (public_url env.cfg "qrcode"
                      (generate_unique_id env.clock)) },
          db := { db with qrcodes := db.qrcodes ++
                    [⟨req.name.getD "", generate_unique_id env.clock,
                      public_url env.cfg "qrcode" (generate_unique_id env.clock)⟩] },
          pool := pool,
          trace := [.render (req.name.getD ""),
                    .upload (destination_key "qrcode" (generate_unique_id env.clock)),
                    .dbInsert (generate_unique_id env.clock)] }) :=
  ⟨generate_barcode_success_spec env req db pool, generate_qrcode_success_spec env req db pool⟩

/-- Witness for C4 (amended) at a concrete successful run of each
endpoint. -/
theorem unique_id_roles_witness :
    generate_barcode envOk ⟨some "A", none⟩ db0 0 =
      { resp := { status := 201, isSuccess := true,
                  message := "Barcode generated and stored successfully",
                  unique_id := some (generate_unique_id_barcode envOk.clock),
                  image_path := some (public_url envOk.cfg "barcode"
                    (generate_unique_id_barcode envOk.clock)) },
        db := { db0 with barcodes := db0.barcodes ++
                  [⟨"A", generate_unique_id_barcode envOk.clock,
                    public_url envOk.cfg "barcode" (generate_unique_id_barcode envOk.clock)⟩] },
        pool := 0,
        trace := [.render (generate_unique_id_barcode envOk.clock),
                  .upload (destination_key "barcode" (generate_unique_id_barcode envOk.clock)),
                  .dbInsert (generate_unique_id_barcode envOk.clock)] } ∧
    generate_qrcode envOk ⟨some "A", none⟩ db0 0 =
      { resp := { status := 201, isSuccess := true,
                  message := "QR Code generated and stored successfully",
                  unique_id := some (generate_unique_id envOk.clock),
                  image_path := some (public_url envOk.cfg "qrcode"
                    (generate_unique_id envOk.clock)) },
        db := { db0 with qrcodes := db0.qrcodes ++
                  [⟨"A", generate_unique_id envOk.clock,
                    public_url envOk.cfg "qrcode" (generate_unique_id envOk.clock)⟩] },
        pool := 0,
        trace := [.render "A",
                  .upload (destination_key "qrcode" (generate_unique_id envOk.clock)),
                  .dbInsert (generate_unique_id envOk.clock)] } :=
  ⟨(unique_id_roles envOk ⟨some "A", none⟩ db0 0).1 (by decide),
   (unique_id_roles envOk ⟨some "A", none⟩ db0 0).2 (by decide)⟩

/-- C6: the render and upload helpers never propagate an internal
exception — whenever their body raises, the wrapper returns the `None`
sentinel, and whenever the body succeeds its value is returned; and the
endpoints treat the `None` sentinel as the failure case, answering with
`isSuccess: false`. -/
theorem helpers_swallow_exceptions (env : Env) (uid data path ftype : String)
    (req : GenRequest) (db : DB) (pool : Nat) :
    (∀ e, gs1_body env uid = Except.error e → generate_gs1_barcode env uid = none) ∧
    (∀ x, gs1_body env uid = Except.ok x → generate_gs1_barcode env uid = some x) ∧
    (∀ e, qr_body env data uid = Except.error e → generate_qr_code env data uid = none) ∧
    (∀ x, qr_body env data uid = Except.ok x → generate_qr_code env data uid = some x) ∧
    (∀ e, upload_body env path uid ftype = Except.error e →
      upload_to_supabase env path uid ftype = none) ∧
    (∀ x, upload_body env path uid ftype = Except.ok x →
      upload_to_supabase env path uid ftype = some x) ∧
    (generate_gs1_barcode env (generate_unique_id_barcode env.clock) = none →
      (generate_barcode env req db pool).resp.isSuccess = false) ∧
    (generate_qr_code env (req.name.getD "") (generate_unique_id env.clock) = none →
      (generate_qrcode env req db pool).resp.isSuccess = false) ∧
    ((∀ p u t, upload_to_supabase env p u t = none) →
      (generate_barcode env req db pool).resp.isSuccess = false ∧
      (generate_qrcode env req db pool).resp.isSuccess = false) := by
  refine ⟨fun e h => by simp [generate_gs1_barcode, h],
          fun x h => by simp [generate_gs1_barcode, h],
          fun e h => by simp [generate_qr_code, h],
          fun x h => by simp [generate_qr_code, h],
          fun e h => by simp [upload_to_supabase, h],
          fun x h => by simp [upload_to_supabase, h],
          fun h => ?_, fun h => ?_, fun h => ⟨?_, ?_⟩⟩
  · by_cases hn : pyTruthy req.name = true <;> simp [generate_barcode, hn, h]
  · by_cases hn : pyTruthy req.name = true <;> simp [generate_qrcode, hn, h]
  · by_cases hn : pyTruthy req.name = true
    · cases hg : generate_gs1_barcode env (generate_unique_id_barcode env.clock) with
      | none => simp [generate_barcode, hn, hg]
      | some p => simp [generate_barcode, hn, hg, h]
    · simp [generate_barcode, hn]
  · by_cases hn : pyTruthy req.name = true
    · cases hg : generate_qr_code env (req.name.getD "") (generate_unique_id env.clock) with
      | none => simp [generate_qrcode, hn, hg]
      | some p => simp [generate_qrcode, hn, hg, h]
    · simp [generate_qrcode, hn]

/-- Witness for C6 in a concrete environment whose library and upload
calls all raise. -/
theorem helpers_swallow_exceptions_witness :
    generate_gs1_barcode envAllThrow "000000000000" = none ∧
    generate_qr_code envAllThrow "A" "000000000000" = none ∧
    upload_to_supabase envAllThrow "/tmp/0.png" "000000000000" "qrcode" = none ∧
    (generate_barcode envAllThrow ⟨some "A", none⟩ db0 0).resp.isSuccess = false ∧
    (generate_qrcode envAllThrow ⟨some "A", none⟩ db0 0).resp.isSuccess = false := by
  obtain ⟨h1, _, h3, _, h5, _, h7, h8, _⟩ :=
    helpers_swallow_exceptions envAllThrow "000000000000" "A" "/tmp/0.png" "qrcode"
      ⟨some "A", none⟩ db0 0
  exact ⟨h1 PyErr.libError rfl, h3 PyErr.libError rfl,
    h5 PyErr.libError rfl, h7 (by decide), h8 (by decide)⟩

/-- C8: after a successful generation of either kind that returned
unique id `U` and URL `L`, when no pre-existing row shares `U`, a
`scan_code_new` request for `U` against the resulting database returns
HTTP 200 with `isSuccess: true`, the request's name and `image_path`
equal to `L`. -/
theorem generation_scan_roundtrip (env env2 : Env) (req : GenRequest) (db : DB)
    (pool pool2 : Nat) (U L : String) (henv2 : env2.dbFails = false)
    (hf1 : ∀ r ∈ db.barcodes, r.unique_id ≠ U)
    (hf2 : ∀ r ∈ db.qrcodes, r.unique_id ≠ U) :
    ((generate_barcode env req db pool).resp.isSuccess = true →
      (generate_barcode env req db pool).resp.unique_id = some U →
      (generate_barcode env req db pool).resp.image_path = some L →
      req.name = some (req.name.getD "") ∧
      scan_code env2 ⟨some U⟩ (generate_barcode env req db pool).db pool2 =
        { resp := { status := 200, isSuccess := true, message := "",
                    name := some (req.name.getD ""), image_path := some L },
          pool := pool2, trace := [Call.dbQuery U] }) ∧
    ((generate_qrcode env req db pool).resp.isSuccess = true →
      (generate_qrcode env req db pool).resp.unique_id = some U →
      (generate_qrcode env req db pool).resp.image_path = some L →
      req.name = some (req.name.getD "") ∧
      scan_code env2 ⟨some U⟩ (generate_qrcode env req db pool).db pool2 =
        { resp := { status := 200, isSuccess := true, message := "",
                    name := some (req.name.getD ""), image_path := some L },
          pool := pool2, trace := [Call.dbQuery U] }) := by
  constructor
  · intro hs hu hl
    have hn := generate_barcode_success_name env req db pool hs
    have hspec := generate_barcode_success_spec env req db pool hs
    rw [hspec] at hu hl
    simp only [Option.some.injEq] at hu hl
    subst hu
    subst hl
    refine ⟨pyTruthy_some_getD req.name hn, ?_⟩
    rw [hspec]
    exact scan_found env2 _ pool2 _ _ (uid12_ne_empty env.clock) henv2
      (fetchUnion_barcodes_insert db _ _ hf1 hf2 rfl)
  · intro hs hu hl
    have hn := generate_qrcode_success_name env req db pool hs
    have hspec := generate_qrcode_success_spec env req db pool hs
    rw [hspec] at hu hl
    simp only [Option.some.injEq] at hu hl
    subst hu
    subst hl
    refine ⟨pyTruthy_some_getD req.name hn, ?_⟩
    rw [hspec]
    exact scan_found env2 _ pool2 _ _ (generate_unique_id_ne_empty env.clock) henv2
      (fetchUnion_qrcodes_insert db _ _ hf1 hf2 rfl)

/-- Witness for C8 at a concrete successful barcode generation followed
by a scan of the returned unique id. -/
theorem generation_scan_roundtrip_witness :
    ((some "A" : Option String) = some "A") ∧
    scan_code envOk ⟨some "000000000000"⟩
        (generate_barcode envOk ⟨some "A", none⟩ db0 0).db 0 =
      { resp := { status := 200, isSuccess := true, message := "",
                  name := some "A",
                  image_path := some "https://sb/storage/v1/object/public/bkt/static/barcodes/000000000000.png" },
        pool := 0, trace := [Call.dbQuery "000000000000"] } :=
  (generation_scan_roundtrip envOk envOk ⟨some "A", none⟩ db0 0 0 "000000000000"
    "https://sb/storage/v1/object/public/bkt/static/barcodes/000000000000.png"
    rfl (by simp [db0]) (by simp [db0])).1 (by decide) (by decide) (by decide)

end BarcodeGen
